import Mathlib

/-!
Verification of the Balatro-shader-simulation image viewer
(src/src/main.rs) by a shallow embedding in Lean 4.

The program is a wgpu/winit application: it decodes one image, uploads it
to a GPU texture, renders it through a fragment shader onto a resizable
window, and hot-reloads the texture when the file changes on disk.  All
external effects (filesystem, GPU queue, window system) are modelled as
pure data: the filesystem is a snapshot function, and every side-effecting
call the program makes is recorded as an `Action` in an emitted trace, in
program order.  Event-loop handlers become pure functions from state and
event to new state plus trace.
-/

namespace BalatroShaderSim

/-- Decoded RGBA8 pixel buffer, as returned by image::open(...).to_rgba8()
(main.rs:69-79): width, height, and the raw byte sequence (into_raw). -/
structure RgbaImage where
  width : Nat
  height : Nat
  data : List Nat
deriving DecidableEq, Repr

deriving instance DecidableEq for Except

/-- One filesystem entry at some instant: the path may be missing, or
present with a decode outcome (decoding may fail with an error message). -/
inductive FsEntry where
  | missing
  | file (decode : Except String RgbaImage)
deriving DecidableEq

/-- Filesystem snapshot: what each path holds at one instant.  The watched
file can change between two reads, so each read takes its own snapshot. -/
def FS := String → FsEntry

/-- Embedding of load_image (main.rs:69-79): an explicit existence check
producing a File-not-found error, then the decoder's own outcome. -/
def load_image (fs : FS) (img_path : String) : Except String RgbaImage :=
  match fs img_path with
  | .missing => .error ("File not found: " ++ img_path)
  | .file d => d

/-- Embedding of wgpu::SurfaceConfiguration as built at main.rs:150-159.
Fields other than width/height are abstracted to opaque codes since the
program only ever copies or compares them. -/
structure SurfaceConfiguration where
  usage : Nat
  format : Nat
  width : Nat
  height : Nat
  present_mode : Nat
  desired_maximum_frame_latency : Nat
  alpha_mode : Nat
  view_formats : List Nat
deriving DecidableEq, Repr

/-- Every externally visible effect the program performs, recorded in
program order.  GPU-queue calls, stderr/stdout output, window requests,
surface reconfiguration, process termination. -/
inductive Action where
  | writeTexture (bytes : List Nat) (offset bytesPerRow rowsPerImage : Nat)
      (width height depth : Nat)
  | eprintln (msg : String)
  | println (msg : String)
  | requestRedraw
  | configureSurface (c : SurfaceConfiguration)
  | createCommandEncoder
  | beginRenderPass (r g b a : ℚ)
  | setPipeline
  | setBindGroup
  | setVertexBuffer
  | setIndexBuffer
  | drawIndexed (lo hi : Nat)
  | endRenderPass
  | submit
  | present
  | fatalExit (msg : String)
  | exitEventLoop
deriving DecidableEq, Repr

/-- True exactly for GPU texture writes, the effect hot-reload must not
perform on a failed decode. -/
def Action.isGpuWrite : Action → Bool
  | .writeTexture _ _ _ _ _ _ _ => true
  | _ => false

/-- True exactly for render-pass openings. -/
def Action.isPassBegin : Action → Bool
  | .beginRenderPass _ _ _ _ => true
  | _ => false

/-- True exactly for indexed draw calls. -/
def Action.isDraw : Action → Bool
  | .drawIndexed _ _ => true
  | _ => false

/-- Embedding of write_texture (main.rs:16-37).  It re-invokes load_image
on the path; on success it enqueues a queue.write_texture of the decoded
bytes with offset 0, bytes_per_row = 4*width, rows_per_image = height and
extent width*height*1, where width and height are the CALLER-SUPPLIED
(allocation-time) dimensions, not the decoded image's own; on failure it
only prints the error to stderr.  Note the Rust parameter order: height
before width. -/
def write_texture (fs : FS) (img_path : String) (height width : Nat) :
    List Action :=
  match load_image fs img_path with
  | .ok img =>
      [.writeTexture img.data 0 (4 * width) height width height 1]
  | .error e => [.eprintln ("Failed to load image: " ++ e)]

/-- Embedding of parse_args (main.rs:40-51): with fewer than two argv
entries it prints a diagnostic and exits with status 1 (modelled as the
error case); otherwise it returns argv[1].  This function is defined in
the source but never called from main. -/
def parse_args (args : List String) : Except String String :=
  match args with
  | _ :: p :: _ => .ok p
  | _ => .error "Image path required."

/-- Embedding of pick_image_file (main.rs:54-67): the dialog outcome is
an optional path; None means the user made no selection, upon which the
program prints a diagnostic and exits with status 1 (the error case). -/
def pick_image_file (dialog : Option String) : Except String String :=
  match dialog with
  | some p => .ok p
  | none => .error "No file selected. Exiting."

/-- How main acquires the image path (main.rs:84), as a function of the
process arguments and the dialog outcome: it calls pick_image_file and
never consults the arguments (parse_args is dead code). -/
def main_img_path (_args : List String) (dialog : Option String) :
    Except String String :=
  pick_image_file dialog

/-- Embedding of the surface capability lists (main.rs:145). -/
structure SurfaceCaps where
  formats : List Nat
  alpha_modes : List Nat
deriving DecidableEq, Repr

/-- Embedding of caps.formats[0] (main.rs:146): a plain index with no
emptiness check.  `none` models the Rust index panic (a generic
index-out-of-bounds abort), not any descriptive error path: the source
constructs no error for the empty case. -/
def select_surface_format (caps : SurfaceCaps) : Option Nat :=
  caps.formats.get? 0

/-- Embedding of caps.alpha_modes[0] (main.rs:147): same shape as
select_surface_format; `none` models the index panic. -/
def select_alpha_mode (caps : SurfaceCaps) : Option Nat :=
  caps.alpha_modes.get? 0

/-- Embedding of the WindowEvent::Resized handler (main.rs:368-377):
clamp each incoming dimension to a minimum of 1, store both into the
surface configuration, apply the configuration to the surface, then
request a redraw.  Returns the updated configuration and the trace. -/
def handle_resized (c : SurfaceConfiguration) (w h : Nat) :
    SurfaceConfiguration × List Action :=
  let width := max w 1
  let height := max h 1
  let c2 := { c with width := width, height := height }
  (c2, [.configureSurface c2, .requestRedraw])

/-- Embedding of the file-watch branch (main.rs:361-365): one
non-blocking try_recv; when a message is present, call write_texture with
the startup path and allocation-time dimensions, request a redraw, and
print the message — in that order, unconditionally on the notification
(the redraw request does not depend on the decode outcome inside
write_texture).  When no message is pending, nothing happens. -/
def reload_branch (fs : FS) (img_path : String) (height width : Nat)
    (msg : Option String) : List Action :=
  match msg with
  | some m =>
      write_texture fs img_path height width ++
        [.requestRedraw, .println ("File change received: " ++ m)]
  | none => []

/-- Embedding of the WindowEvent::RedrawRequested handler
(main.rs:381-430).  acquireOk tells whether surface.get_current_texture
succeeded; on failure the .expect aborts the process.  On success: one
command encoder, one render pass cleared to the fixed color
(0.1, 0.2, 0.3, 1.0), pipeline + bind group + vertex and index buffers
bound, one indexed draw over indices 0..6, pass closed, command buffer
submitted, frame presented. -/
def redraw_branch (acquireOk : Bool) : List Action :=
  if acquireOk then
    [.createCommandEncoder,
     .beginRenderPass (1/10) (2/10) (3/10) 1,
     .setPipeline, .setBindGroup, .setVertexBuffer, .setIndexBuffer,
     .drawIndexed 0 6, .endRenderPass, .submit, .present]
  else [.fatalExit "Failed to acquire next swap chain texture"]

/-- The window events the program matches on (main.rs:367-432); arms the
source ignores collapse into `other`. -/
inductive WinEvent where
  | resized (w h : Nat)
  | closeRequested
  | redrawRequested
  | other
deriving DecidableEq, Repr

/-- The top-level events of one event-loop tick (main.rs:357-439):
a window event (tagged with whether it targets the program's window),
the about-to-wait point, or anything else. -/
inductive LoopEvent where
  | windowEvent (forThisWindow : Bool) (e : WinEvent)
  | aboutToWait
  | other
deriving DecidableEq, Repr

/-- Scheduler phase: `running` while the loop dispatches events;
`closing` after event_loop_window_target.exit() (main.rs:379), upon which
winit terminates the loop and dispatches no further events.  The closing
phase is modelled as absorbing and inert. -/
inductive SchedState where
  | running
  | closing
deriving DecidableEq, Repr

/-- The mutable state the event-loop closure owns across ticks: the
scheduler phase and the current surface configuration (the only mutable
capture of the closure, main.rs:150 and 372-373). -/
structure LoopState where
  sched : SchedState
  config : SurfaceConfiguration
deriving DecidableEq, Repr

/-- Dispatch of one window event while running (main.rs:367-432). -/
def dispatch_window_event (st : LoopState) (e : WinEvent)
    (acquireOk : Bool) : LoopState × List Action :=
  match e with
  | .resized w h =>
      let r := handle_resized st.config w h
      ({ st with config := r.1 }, r.2)
  | .closeRequested => ({ st with sched := .closing }, [.exitEventLoop])
  | .redrawRequested => (st, redraw_branch acquireOk)
  | .other => (st, [])

/-- One tick of the event loop (main.rs:354-440).  Returns the new state,
the trace, and the channel content left unconsumed by this tick.  The
try_recv poll happens only inside the arm for window events addressed to
the program's window, before the event-specific match; AboutToWait only
requests a redraw and does not touch the channel.  A tick in the closing
phase is inert: winit dispatches no events after exit(). -/
def tick (st : LoopState) (ev : LoopEvent) (pending : Option String)
    (fs : FS) (img_path : String) (height width : Nat)
    (acquireOk : Bool) : LoopState × List Action × Option String :=
  match st.sched with
  | .closing => (st, [], pending)
  | .running =>
    match ev with
    | .windowEvent true e =>
        let pre := reload_branch fs img_path height width pending
        let r := dispatch_window_event st e acquireOk
        (r.1, pre ++ r.2, none)
    | .windowEvent false _ => (st, [], pending)
    | .aboutToWait => (st, [.requestRedraw], pending)
    | .other => (st, [], pending)

/-- Embedding of main's startup, up to the initial texture upload
(main.rs:84-86 and 180): acquire the path from the dialog, decode the
image (fatal on failure, via .expect), record (width, height), then call
write_texture on the SAME PATH with a fresh filesystem read (snapshot
fs1), not on the already-decoded buffer.  On success, returns the path,
the allocation dimensions, and the upload trace. -/
def startup (fs0 fs1 : FS) (dialog : Option String) :
    Except String (String × Nat × Nat × List Action) :=
  match pick_image_file dialog with
  | .error e => .error e
  | .ok img_path =>
    match load_image fs0 img_path with
    | .error e => .error ("Failed to load image: " ++ e)
    | .ok img =>
        .ok (img_path, img.width, img.height,
             write_texture fs1 img_path img.height img.width)

/-! Concrete fixtures used by counterexamples and witnesses. -/

/-- A 4 by 4 RGBA8 image: 64 bytes. -/
def img4x4 : RgbaImage := ⟨4, 4, List.replicate 64 7⟩

/-- A 2 by 2 RGBA8 image: 16 bytes, fewer than a 4 by 4 texture holds. -/
def img2x2 : RgbaImage := ⟨2, 2, List.replicate 16 255⟩

/-- Filesystem snapshot where every path decodes to the 4 by 4 image. -/
def fs_good : FS := fun _ => .file (.ok img4x4)

/-- Filesystem snapshot where every path decodes to the 2 by 2 image, as
after overwriting the watched file with a smaller picture. -/
def fs_reload_2x2 : FS := fun _ => .file (.ok img2x2)

/-- Filesystem snapshot where decoding fails, as for a file caught
mid-write. -/
def fs_decode_error : FS := fun _ => .file (.error "unsupported format")

/-- The surface configuration built at startup for an 800 by 600 image,
with opaque codes for the negotiated fields. -/
def cfg0 : SurfaceConfiguration := ⟨1, 2, 800, 600, 3, 0, 4, []⟩

/-- Loop state at startup: running, with the startup configuration. -/
def st0 : LoopState := ⟨.running, cfg0⟩

/-- C1: the claim says a reload whose image decodes to different
dimensions is rejected by explicit validation before the GPU write.  The
code performs no such validation: with a texture allocated for a 4 by 4
image, a reload that decodes to a 2 by 2 image (16 bytes) is passed
straight to queue.write_texture against the 4 by 4 extent, whose layout
requires 4*4*4 = 64 bytes — the mismatched write reaches the GPU queue
unrejected. -/
theorem C1_mismatched_reload_write_reaches_gpu :
    write_texture fs_reload_2x2 "img.png" 4 4 =
      [Action.writeTexture (List.replicate 16 255) 0 16 4 4 4 1] ∧
    (List.replicate 16 (255 : Nat)).length ≠ 4 * 4 * 4 := by
  exact ⟨rfl, by decide⟩

/-- C2: format negotiation selects the first entry of each non-empty
capability list, but on an empty list the code performs a plain index
with no emptiness check: the `none` outcome models Rust's generic
index-out-of-bounds panic, not a descriptive initialization error — no
error path exists in the source for the empty case. -/
theorem C2_first_entry_selected_empty_list_panics :
    (∀ (f a : Nat) (fr ar : List Nat),
      select_surface_format ⟨f :: fr, a :: ar⟩ = some f ∧
      select_alpha_mode ⟨f :: fr, a :: ar⟩ = some a) ∧
    select_surface_format ⟨[], []⟩ = none ∧
    select_alpha_mode ⟨[], []⟩ = none := by
  exact ⟨fun f a fr ar => ⟨rfl, rfl⟩, rfl, rfl⟩

/-- C3: every Resized(w,h) event sets the surface configuration's width
and height to max(w,1) and max(h,1) — exact when w,h ≥ 1, clamped to 1
when a dimension is 0, never zero — and the handler applies the new
configuration to the surface before requesting the redraw. -/
theorem C3_resized_clamps_then_reconfigures_before_redraw :
    ∀ (c : SurfaceConfiguration) (w h : Nat),
      (handle_resized c w h).1.width = max w 1 ∧
      (handle_resized c w h).1.height = max h 1 ∧
      (1 ≤ w → (handle_resized c w h).1.width = w) ∧
      (1 ≤ h → (handle_resized c w h).1.height = h) ∧
      (handle_resized c 0 h).1.width = 1 ∧
      (handle_resized c w 0).1.height = 1 ∧
      (handle_resized c w h).1.width ≠ 0 ∧
      (handle_resized c w h).1.height ≠ 0 ∧
      (handle_resized c w h).2 =
        [.configureSurface (handle_resized c w h).1, .requestRedraw] := by
  intro c w h
  refine ⟨rfl, rfl, fun hw => ?_, fun hh => ?_, ?_, ?_, ?_, ?_, rfl⟩
  · simp [handle_resized, Nat.max_eq_left hw]
  · simp [handle_resized, Nat.max_eq_left hh]
  · simp [handle_resized]
  · simp [handle_resized]
  · simp [handle_resized]
  · simp [handle_resized]

/-- C3 witness: the clamping statement instantiated at the startup
configuration with the concrete resize 800 by 0. -/
theorem C3_resized_witness :
    (handle_resized cfg0 800 0).1.width = 800 ∧
    (handle_resized cfg0 800 0).1.height = 1 :=
  ⟨(C3_resized_clamps_then_reconfigures_before_redraw cfg0 800 0).2.2.1
      (by decide),
   (C3_resized_clamps_then_reconfigures_before_redraw cfg0 800 0).2.2.2.2.2.1⟩

/-- C4 counterexample: the claim says no redraw is forced for a failed
reload, but the reload branch requests a redraw unconditionally after
write_texture returns, so a notification whose decode fails still
requests a redraw. -/
theorem C4_failed_reload_still_requests_redraw :
    Action.requestRedraw ∈
      reload_branch fs_decode_error "img.png" 4 4 (some "Modify") := by
  decide

/-- C4 amended: a failed reload decode is non-fatal — the diagnostic is
printed, no GPU write occurs, and the previous texture contents remain —
but a redraw IS still requested for the failed reload (the request does
not depend on the decode outcome). -/
theorem C4_failed_reload_nonfatal_no_write :
    ∀ (fs : FS) (p m e : String) (hh ww : Nat),
      load_image fs p = .error e →
      reload_branch fs p hh ww (some m) =
        [.eprintln ("Failed to load image: " ++ e),
         .requestRedraw, .println ("File change received: " ++ m)] ∧
      (reload_branch fs p hh ww (some m)).all
        (fun a => !a.isGpuWrite) = true := by
  intro fs p m e hh ww hload
  simp [reload_branch, write_texture, hload, Action.isGpuWrite]

/-- C4 witness: the amended statement at the failing-decode snapshot. -/
theorem C4_failed_reload_witness :
    reload_branch fs_decode_error "img.png" 4 4 (some "Modify") =
      [.eprintln "Failed to load image: unsupported format",
       .requestRedraw, .println "File change received: Modify"] :=
  (C4_failed_reload_nonfatal_no_write fs_decode_error "img.png" "Modify"
      "unsupported format" 4 4 rfl).1

/-- C5 counterexample: the claim says the watch channel is polled on
every tick regardless of event type, but the try_recv sits only inside
the window-event arm: an AboutToWait tick with a notification pending
and a decodable file emits only a redraw request, performs no texture
write, and leaves the notification unconsumed in the channel. -/
theorem C5_about_to_wait_skips_channel :
    (tick st0 .aboutToWait (some "Modify") fs_good "img.png" 4 4
        true).2.1 = [.requestRedraw] ∧
    (tick st0 .aboutToWait (some "Modify") fs_good "img.png" 4 4
        true).2.2 = some "Modify" := by
  decide

/-- C5 amended: only a tick dispatching a window event addressed to the
program's window polls the channel, with a single non-blocking receive,
before the event-specific handling (the reload trace precedes the
dispatched event's trace); when a notification is present and the decode
succeeds, the texture write and a redraw request are emitted.  Ticks for
AboutToWait, foreign-window events, and other events leave the channel
untouched. -/
theorem C5_channel_polled_only_on_window_events :
    ∀ (st : LoopState) (e : WinEvent) (pending : Option String) (fs : FS)
      (p : String) (hh ww : Nat) (ok : Bool),
      st.sched = .running →
      (tick st (.windowEvent true e) pending fs p hh ww ok).2.1 =
        reload_branch fs p hh ww pending ++
          (dispatch_window_event st e ok).2 ∧
      (tick st (.windowEvent true e) pending fs p hh ww ok).2.2 = none ∧
      (tick st .aboutToWait pending fs p hh ww ok).2.2 = pending ∧
      (tick st .other pending fs p hh ww ok).2.2 = pending ∧
      (tick st (.windowEvent false e) pending fs p hh ww ok).2.2 =
        pending ∧
      (∀ (m : String) (img : RgbaImage), load_image fs p = .ok img →
        reload_branch fs p hh ww (some m) =
          [.writeTexture img.data 0 (4 * ww) hh ww hh 1, .requestRedraw,
           .println ("File change received: " ++ m)]) := by
  intro st e pending fs p hh ww ok hsched
  obtain ⟨s, c⟩ := st
  simp only at hsched
  subst hsched
  refine ⟨rfl, rfl, rfl, rfl, rfl, fun m img hload => ?_⟩
  simp [reload_branch, write_texture, hload]

/-- C5 witness: the amended statement at a running state, a resize event,
a pending notification and the decodable snapshot. -/
theorem C5_channel_polled_witness :
    (tick st0 (.windowEvent true (.resized 400 300)) (some "Modify")
        fs_good "img.png" 4 4 true).2.1 =
      reload_branch fs_good "img.png" 4 4 (some "Modify") ++
        (dispatch_window_event st0 (.resized 400 300) true).2 :=
  (C5_channel_polled_only_on_window_events st0 (.resized 400 300)
      (some "Modify") fs_good "img.png" 4 4 true rfl).1

/-- C6: the RedrawRequested handler terminates the process when frame
acquisition fails; on success it builds one command encoder, opens
exactly one render pass clearing to the fixed color (0.1, 0.2, 0.3, 1.0),
binds the pipeline, bind group, vertex buffer and index buffer, issues
exactly one indexed draw over indices 0..6, closes the pass, submits, and
presents — in that order. -/
theorem C6_redraw_handler_sequence :
    ∀ (st : LoopState) (ok : Bool),
      dispatch_window_event st .redrawRequested ok =
        (st, redraw_branch ok) ∧
      redraw_branch true =
        [.createCommandEncoder,
         .beginRenderPass (1/10) (2/10) (3/10) 1,
         .setPipeline, .setBindGroup, .setVertexBuffer, .setIndexBuffer,
         .drawIndexed 0 6, .endRenderPass, .submit, .present] ∧
      redraw_branch false =
        [.fatalExit "Failed to acquire next swap chain texture"] ∧
      (redraw_branch true).countP (fun a => a.isPassBegin) = 1 ∧
      (redraw_branch true).countP (fun a => a.isDraw) = 1 := by
  intro st ok
  exact ⟨rfl, rfl, rfl, by decide, by decide⟩

/-- C7 counterexample: the claim says a path argument names the image
(with the dialog as the no-argument alternative) and that a missing path
argument exits non-zero.  In the code, main always calls the dialog and
never reads the arguments: with a path argument supplied the program
still fails when the dialog is cancelled, and with no path argument it
proceeds normally once the dialog returns a selection. -/
theorem C7_path_argument_ignored :
    main_img_path ["prog", "img.png"] none =
      .error "No file selected. Exiting." ∧
    main_img_path ["prog"] (some "pic.png") = .ok "pic.png" := by
  exact ⟨rfl, rfl⟩

/-- C7 amended: the program acquires its image path exclusively from the
file dialog, ignoring command-line arguments; it exits non-zero with a
diagnostic only when the dialog yields no selection.  parse_args — which
would reject a missing path argument with a diagnostic and exit 1 — is
defined in the source but never invoked from main. -/
theorem C7_dialog_always_used :
    (∀ (args : List String) (dialog : Option String),
      main_img_path args dialog = pick_image_file dialog) ∧
    pick_image_file none = .error "No file selected. Exiting." ∧
    parse_args ["prog"] = .error "Image path required." ∧
    (∀ (p0 p : String) (rest : List String),
      parse_args (p0 :: p :: rest) = .ok p) := by
  exact ⟨fun args dialog => rfl, rfl, rfl, fun p0 p rest => rfl⟩

/-- C8: a CloseRequested event in the running phase transitions the
scheduler to the terminal closing phase; in the closing phase every tick
is inert — no redraw handling, reload handling, or reconfiguration
executes, the state never changes (so the transition happens exactly
once), and the channel is untouched. -/
theorem C8_close_requested_terminal :
    (∀ (st : LoopState) (pending : Option String) (fs : FS) (p : String)
       (hh ww : Nat) (ok : Bool),
      st.sched = .running →
      ((tick st (.windowEvent true .closeRequested) pending fs p hh ww
          ok).1).sched = .closing) ∧
    (∀ (st : LoopState) (ev : LoopEvent) (pending : Option String)
       (fs : FS) (p : String) (hh ww : Nat) (ok : Bool),
      st.sched = .closing →
      tick st ev pending fs p hh ww ok = (st, [], pending)) := by
  constructor
  · intro st pending fs p hh ww ok hsched
    obtain ⟨s, c⟩ := st
    simp only at hsched
    subst hsched
    rfl
  · intro st ev pending fs p hh ww ok hsched
    obtain ⟨s, c⟩ := st
    simp only at hsched
    subst hsched
    rfl

/-- C8 witness: closing from the startup state, and inertness of a
subsequent redraw tick in the closing phase. -/
theorem C8_close_requested_witness :
    ((tick st0 (.windowEvent true .closeRequested) none fs_good "img.png"
        4 4 true).1).sched = .closing ∧
    tick ⟨.closing, cfg0⟩ (.windowEvent true .redrawRequested)
        (some "Modify") fs_good "img.png" 4 4 true =
      (⟨.closing, cfg0⟩, [], some "Modify") :=
  ⟨C8_close_requested_terminal.1 st0 none fs_good "img.png" 4 4 true rfl,
   C8_close_requested_terminal.2 ⟨.closing, cfg0⟩
      (.windowEvent true .redrawRequested) (some "Modify") fs_good
      "img.png" 4 4 true rfl⟩

/-- C9: the Resized handler changes only the width and height of the
surface configuration; usage, format, present mode, desired maximum
frame latency, alpha mode and view formats are preserved by every
resize. -/
theorem C9_resize_preserves_init_fields :
    ∀ (c : SurfaceConfiguration) (w h : Nat),
      (handle_resized c w h).1.usage = c.usage ∧
      (handle_resized c w h).1.format = c.format ∧
      (handle_resized c w h).1.present_mode = c.present_mode ∧
      (handle_resized c w h).1.desired_maximum_frame_latency =
        c.desired_maximum_frame_latency ∧
      (handle_resized c w h).1.alpha_mode = c.alpha_mode ∧
      (handle_resized c w h).1.view_formats = c.view_formats := by
  intro c w h
  exact ⟨rfl, rfl, rfl, rfl, rfl, rfl⟩

/-- C10: the initial texture upload re-reads the file (write_texture
re-invokes load_image on the path with a fresh filesystem snapshot)
instead of uploading the buffer already decoded at startup; a failure of
that second decode only prints the error and startup continues with an
unwritten texture, whereas a failure of the first decode is fatal. -/
theorem C10_initial_upload_redecodes :
    ∀ (fs0 fs1 : FS) (p : String),
      (∀ (img : RgbaImage), load_image fs0 p = .ok img →
        startup fs0 fs1 (some p) =
          .ok (p, img.width, img.height,
               write_texture fs1 p img.height img.width)) ∧
      (∀ (e : String), load_image fs0 p = .error e →
        startup fs0 fs1 (some p) =
          .error ("Failed to load image: " ++ e)) ∧
      (∀ (hh ww : Nat) (e : String), load_image fs1 p = .error e →
        write_texture fs1 p hh ww =
          [.eprintln ("Failed to load image: " ++ e)]) ∧
      (∀ (hh ww : Nat) (img2 : RgbaImage), load_image fs1 p = .ok img2 →
        write_texture fs1 p hh ww =
          [.writeTexture img2.data 0 (4 * ww) hh ww hh 1]) := by
  intro fs0 fs1 p
  refine ⟨fun img hload => ?_, fun e hload => ?_,
          fun hh ww e hload => ?_, fun hh ww img2 hload => ?_⟩
  · simp [startup, pick_image_file, hload]
  · simp [startup, pick_image_file, hload]
  · simp [write_texture, hload]
  · simp [write_texture, hload]

/-- C10 witness: startup with a readable 4 by 4 image whose second read
fails to decode returns successfully, the upload trace being only the
printed diagnostic. -/
theorem C10_initial_upload_witness :
    startup fs_good fs_decode_error (some "img.png") =
      .ok ("img.png", img4x4.width, img4x4.height,
           write_texture fs_decode_error "img.png" img4x4.height
             img4x4.width) :=
  (C10_initial_upload_redecodes fs_good fs_decode_error "img.png").1
    img4x4 rfl

end BalatroShaderSim
